import Mathlib

/-!
Verification of LibreSD (FAT12/16/32 driver stack over SPI SD cards).

The definitions below are shallow embeddings of the C sources in
src/libresd_sd.c, src/libresd_fat.c and src/libresd_file.c.  Machine
integers are modelled as Nat with explicit reductions modulo 2^8, 2^16,
2^32 at the points where the C code truncates.  Sector I/O is modelled
as total functions from sector index and byte offset to byte value
(faithful to the code paths in which every SD transfer succeeds).
Loops are modelled by structural recursion on an explicit fuel argument
chosen large enough that the fuel can never run out before the C loop
exit condition fires on the inputs the theorems cover.
-/

set_option maxRecDepth 100000
set_option maxHeartbeats 1000000

namespace LibreSD

/-- Pointwise update of a byte map, used to model in-place stores. -/
def upd (f : Nat → Nat) (i v : Nat) : Nat → Nat :=
  fun j => if j = i then v else f j

@[simp] theorem upd_same (f : Nat → Nat) (i v : Nat) : upd f i v i = v := by
  simp [upd]

theorem upd_other (f : Nat → Nat) (i v j : Nat) (h : j ≠ i) : upd f i v j = f j := by
  simp [upd, h]

/-!
## SD command framing and CRC-7 (src/libresd_sd.c)

The C function `sd_crc7` keeps an 8-bit register `crc`; each input bit is
processed by `crc <<= 1; if ((d & 0x80) ^ (crc & 0x80)) crc ^= 0x09; d <<= 1`.
After all 40 message bits the trailer is `(crc << 1) | 1`.
-/

/-- One step of the 8-bit register transition of `sd_crc7` on message bit
b: shift the register, compare its new top bit with b, conditionally xor
with 0x09. -/
def sd_crc7_step (crc b : Nat) : Nat :=
  if b ≠ crc * 2 % 256 / 128 % 2 then crc * 2 % 256 ^^^ 0x09 else crc * 2 % 256

/-- The inner loop of `sd_crc7`, processing the top `n` bits of byte `d`,
which is shifted left (as an 8-bit register) after every bit. -/
def sd_crc7_bits (crc d : Nat) : Nat → Nat
  | 0 => crc
  | n + 1 => sd_crc7_bits (sd_crc7_step crc (d / 128 % 2)) (d * 2 % 256) n

/-- The function `sd_crc7` of src/libresd_sd.c on a byte list: the outer
loop folds the 8-bit inner loop over the data, and the returned trailer
is `(crc << 1) | 1` on 8-bit registers. -/
def sd_crc7 (data : List Nat) : Nat :=
  (data.foldl (fun crc d => sd_crc7_bits crc d 8) 0) * 2 % 256 ||| 1

/-- The first five bytes of the 6-byte command frame built by
`libresd_sd_cmd`: `0x40 | cmd` followed by the four big-endian argument
bytes (each store truncates to 8 bits). -/
def sd_cmd_frame (cmd arg : Nat) : List Nat :=
  [(0x40 ||| cmd) % 256,
   arg / 2 ^ 24 % 256,
   arg / 2 ^ 16 % 256,
   arg / 2 ^ 8 % 256,
   arg % 256]

/-- The trailer byte `frame[5] = sd_crc7(frame, 5)` of the command frame. -/
def sd_cmd_trailer (cmd arg : Nat) : Nat :=
  sd_crc7 (sd_cmd_frame cmd arg)

/-!
Reference definition of CRC-7, written from the specification text
independently of the C bit-twiddling: the CRC of a message is the
remainder of the message polynomial times x^7, divided by the generator
x^7 + x^3 + 1 (bit pattern 0x89), computed by binary long division.
-/

/-- One step of binary polynomial long division by x^7 + x^3 + 1:
shift in the next message bit and reduce when degree 7 is reached. -/
def crc7_div_step (acc b : Nat) : Nat :=
  if 128 ≤ acc * 2 + b then (acc * 2 + b) ^^^ 0x89 else acc * 2 + b

/-- CRC-7 as polynomial remainder: divide the message bits followed by
seven zero bits (multiplication by x^7) by the generator polynomial. -/
def crc7_poly (bits : List Nat) : Nat :=
  (bits ++ List.replicate 7 0).foldl crc7_div_step 0

/-- The bits of a byte list, most significant bit of each byte first. -/
def bytes_to_bits (data : List Nat) : List Nat :=
  data.flatMap fun d => (List.range 8).map fun i => d / 2 ^ (7 - i) % 2

/-- Bit-at-a-time view of one byte as consumed by the inner loop of
`sd_crc7`: the top bit of the running 8-bit register d, which is
shifted left after every bit. -/
def msb_bits (d : Nat) : Nat → List Nat
  | 0 => []
  | n + 1 => d / 128 % 2 :: msb_bits (d * 2 % 256) n

/-- The 7-bit linear feedback shift register equivalent of the 8-bit
register kept by the C code. -/
def crc7_lfsr_step (reg b : Nat) : Nat :=
  if b ≠ reg / 64 % 2 then reg * 2 % 128 ^^^ 0x09 else reg * 2 % 128

/-- Flushing seven zero bits through the divider, i.e. the remainder of
reg * x^7 modulo the generator. -/
def crc7_flush (reg : Nat) : Nat :=
  (List.replicate 7 0).foldl crc7_div_step reg

theorem sd_crc7_bits_eq_fold (n : Nat) :
    ∀ crc d, sd_crc7_bits crc d n = (msb_bits d n).foldl sd_crc7_step crc := by
  induction n with
  | zero => intro crc d; rfl
  | succ n ih =>
    intro crc d
    simp only [sd_crc7_bits, msb_bits, List.foldl_cons, ih]

theorem sd_crc7_step_lt (crc b : Nat) : sd_crc7_step crc b < 256 := by
  have hx : ∀ x, x < 256 → x ^^^ 9 < 256 := by decide
  unfold sd_crc7_step
  split
  · exact hx _ (Nat.mod_lt _ (by norm_num))
  · exact Nat.mod_lt _ (by norm_num)

theorem sd_crc7_step_mod :
    ∀ crc < 256, ∀ b < 2, sd_crc7_step crc b % 128 = crc7_lfsr_step (crc % 128) b := by
  decide

theorem foldl_sd_crc7_step_mod (bits : List Nat) :
    ∀ crc, crc < 256 → (∀ b ∈ bits, b < 2) →
      bits.foldl sd_crc7_step crc % 128 = bits.foldl crc7_lfsr_step (crc % 128) := by
  induction bits with
  | nil => intro crc _ _; rfl
  | cons b bs ih =>
    intro crc hc hb
    simp only [List.foldl_cons]
    rw [ih _ (sd_crc7_step_lt crc b) (fun x hx => hb x (List.mem_cons_of_mem _ hx)),
        sd_crc7_step_mod crc hc b (hb b (List.mem_cons_self _ _))]

theorem crc7_div_step_lt : ∀ acc < 128, ∀ b < 2, crc7_div_step acc b < 128 := by
  decide

set_option maxHeartbeats 16000000 in
theorem crc7_flush_div_step :
    ∀ acc < 128, ∀ b < 2, crc7_flush (crc7_div_step acc b) = crc7_lfsr_step (crc7_flush acc) b := by
  decide

theorem foldl_div_eq_lfsr (bits : List Nat) :
    ∀ acc, acc < 128 → (∀ b ∈ bits, b < 2) →
      (bits ++ List.replicate 7 0).foldl crc7_div_step acc =
        bits.foldl crc7_lfsr_step (crc7_flush acc) := by
  induction bits with
  | nil => intro acc _ _; simp only [List.nil_append, List.foldl_nil, crc7_flush]
  | cons b bs ih =>
    intro acc ha hb
    simp only [List.cons_append, List.foldl_cons]
    rw [ih _ (crc7_div_step_lt acc ha b (hb b (List.mem_cons_self _ _)))
          (fun x hx => hb x (List.mem_cons_of_mem _ hx)),
        crc7_flush_div_step acc ha b (hb b (List.mem_cons_self _ _))]

theorem crc7_poly_eq_lfsr (bits : List Nat) (hb : ∀ b ∈ bits, b < 2) :
    crc7_poly bits = bits.foldl crc7_lfsr_step 0 := by
  unfold crc7_poly
  rw [foldl_div_eq_lfsr bits 0 (by norm_num) hb]
  rfl

theorem msb_bits_eight (d : Nat) :
    msb_bits d 8 = (List.range 8).map fun i => d / 2 ^ (7 - i) % 2 := by
  simp only [msb_bits, List.range_succ, List.map_append, List.map_cons, List.map_nil,
    show List.range 0 = [] from rfl, List.nil_append, List.cons_append, List.cons.injEq,
    and_true]
  norm_num
  and_intros <;> omega

theorem sd_crc7_fold_eq_bits (data : List Nat) :
    data.foldl (fun crc d => sd_crc7_bits crc d 8) 0 =
      (bytes_to_bits data).foldl sd_crc7_step 0 := by
  suffices h : ∀ crc, data.foldl (fun crc d => sd_crc7_bits crc d 8) crc =
      (bytes_to_bits data).foldl sd_crc7_step crc from h 0
  induction data with
  | nil => intro crc; rfl
  | cons d ds ih =>
    intro crc
    simp only [List.foldl_cons, bytes_to_bits, List.flatMap_cons, List.foldl_append]
    rw [sd_crc7_bits_eq_fold, msb_bits_eight d]
    have h2 := ih
    simp only [bytes_to_bits] at h2
    exact h2 _

theorem bytes_to_bits_lt (data : List Nat) : ∀ b ∈ bytes_to_bits data, b < 2 := by
  intro b hb
  simp only [bytes_to_bits, List.mem_flatMap, List.mem_map, List.mem_range] at hb
  obtain ⟨d, _, i, _, rfl⟩ := hb
  exact Nat.mod_lt _ (by norm_num)

theorem foldl_sd_crc7_step_lt (bits : List Nat) :
    ∀ crc, crc < 256 → bits.foldl sd_crc7_step crc < 256 := by
  induction bits with
  | nil => intro crc h; exact h
  | cons b bs ih => intro crc _; exact ih _ (sd_crc7_step_lt crc b)

theorem double_mod_or_one : ∀ y < 128, (2 * y) ||| 1 = 2 * y + 1 := by
  decide

/-- The trailer of any command frame splits as 2 * crc + 1 where crc is
the 7-bit LFSR result over the frame bits. -/
theorem sd_cmd_trailer_split (cmd arg : Nat) :
    sd_cmd_trailer cmd arg =
      2 * ((bytes_to_bits (sd_cmd_frame cmd arg)).foldl crc7_lfsr_step 0) + 1 := by
  unfold sd_cmd_trailer sd_crc7
  rw [sd_crc7_fold_eq_bits]
  set T := (bytes_to_bits (sd_cmd_frame cmd arg)).foldl sd_crc7_step 0 with hT
  have hTlt : T < 256 := foldl_sd_crc7_step_lt _ 0 (by norm_num)
  have hmod : T % 128 = (bytes_to_bits (sd_cmd_frame cmd arg)).foldl crc7_lfsr_step 0 := by
    rw [hT, foldl_sd_crc7_step_mod _ 0 (by norm_num) (bytes_to_bits_lt _)]
  have h2 : T * 2 % 256 = 2 * (T % 128) := by omega
  rw [h2, double_mod_or_one _ (Nat.mod_lt _ (by norm_num)), hmod]

/-- Claim C9: for every command number and 32-bit argument, the trailer
byte of the 6-byte command frame has its high 7 bits equal to the CRC-7
(polynomial x^7 + x^3 + 1, initial value 0) of the first five frame
bytes, and its low bit equal to 1; in particular the frame for CMD0 with
argument 0 carries trailer 0x95. -/
theorem claim_C9_cmd_frame_crc7 :
    (∀ cmd arg : Nat,
      sd_cmd_trailer cmd arg / 2 = crc7_poly (bytes_to_bits (sd_cmd_frame cmd arg)) ∧
      sd_cmd_trailer cmd arg % 2 = 1) ∧
    sd_cmd_trailer 0 0 = 0x95 := by
  refine ⟨fun cmd arg => ?_, by decide⟩
  rw [crc7_poly_eq_lfsr _ (bytes_to_bits_lt _), sd_cmd_trailer_split]
  omega

/-!
## FAT volume model (src/libresd_fat.c)

`FatVol` mirrors the scalar fields of `libresd_fat_t`; `FatBuf` holds the
volume wide FAT sector buffer together with the disk image, a total map
from sector index and byte offset to byte value.  The volume label and
serial fields of the C structure are not modelled: no verified property
mentions them.
-/

inductive FsType where
  | NONE
  | FAT12
  | FAT16
  | FAT32
  | EXFAT
  deriving DecidableEq

structure FatVol where
  mounted : Bool
  fs_type : FsType
  bytes_per_sector : Nat
  sectors_per_cluster : Nat
  reserved_sectors : Nat
  num_fats : Nat
  root_entry_count : Nat
  total_sectors : Nat
  sectors_per_fat : Nat
  root_cluster : Nat
  fat_start_sector : Nat
  root_start_sector : Nat
  data_start_sector : Nat
  cluster_count : Nat
  cluster_size : Nat
  cwd_cluster : Nat
  deriving DecidableEq

/-- Disk-image update of one whole sector, modelling a sector write. -/
def upds (d : Nat → Nat → Nat) (s : Nat) (bytes : Nat → Nat) : Nat → Nat → Nat :=
  fun t => if t = s then bytes else d t

/-- The READ16 macro of libresd_fat.c. -/
def read16 (buf : Nat → Nat) (off : Nat) : Nat :=
  buf off ||| buf (off + 1) <<< 8

/-- The READ32 macro of libresd_fat.c. -/
def read32 (buf : Nat → Nat) (off : Nat) : Nat :=
  buf off ||| buf (off + 1) <<< 8 ||| buf (off + 2) <<< 16 ||| buf (off + 3) <<< 24

/-- The WRITE16 macro of libresd_fat.c: two byte stores, each truncated
to 8 bits. -/
def write16 (buf : Nat → Nat) (off v : Nat) : Nat → Nat :=
  upd (upd buf off (v &&& 0xFF)) (off + 1) (v >>> 8 &&& 0xFF)

/-- The WRITE32 macro of libresd_fat.c. -/
def write32 (buf : Nat → Nat) (off v : Nat) : Nat → Nat :=
  upd (upd (upd (upd buf off (v &&& 0xFF)) (off + 1) (v >>> 8 &&& 0xFF))
    (off + 2) (v >>> 16 &&& 0xFF)) (off + 3) (v >>> 24 &&& 0xFF)

/-- The FAT-type decision of `libresd_fat_mount` (lines 486..494 of
libresd_fat.c). -/
def fat_determine_type (cluster_count : Nat) : FsType :=
  if cluster_count < 4085 then .FAT12
  else if cluster_count < 65525 then .FAT16
  else .FAT32

/-- Shallow embedding of `libresd_fat_mount` on a disk image.  All C
`uint32_t` arithmetic is reduced modulo 2^32 exactly where the C code
can wrap.  `none` stands for the error returns (ERR_NO_FS and
ERR_INVALID_FS); sector reads are modelled as always succeeding.  When
sector 0 carries no recognized MBR the C code keeps the already-read
sector 0 in `buffer`; the embedding re-reads sector `partition_start = 0`
there, which is the same sector. -/
def libresd_fat_mount (disk : Nat → Nat → Nat) : Option FatVol :=
  let buffer := disk 0
  let partition_start :=
    if buffer 510 = 0x55 ∧ buffer 511 = 0xAA ∧
       (buffer 450 = 0x01 ∨ buffer 450 = 0x04 ∨ buffer 450 = 0x06 ∨
        buffer 450 = 0x0B ∨ buffer 450 = 0x0C ∨ buffer 450 = 0x0E) then
      read32 buffer 454
    else 0
  let buffer := disk partition_start
  if ¬(buffer 510 = 0x55 ∧ buffer 511 = 0xAA) then none
  else
    let bytes_per_sector := read16 buffer 11
    let sectors_per_cluster := buffer 13
    let reserved_sectors := read16 buffer 14
    let num_fats := buffer 16
    let root_entry_count := read16 buffer 17
    let ts16 := read16 buffer 19
    let total_sectors := if ts16 = 0 then read32 buffer 32 else ts16
    let spf16 := read16 buffer 22
    let sectors_per_fat := if spf16 = 0 then read32 buffer 36 else spf16
    if bytes_per_sector ≠ 512 ∨ sectors_per_cluster = 0 ∨
       num_fats = 0 ∨ reserved_sectors = 0 then none
    else
      let fat_start_sector := (partition_start + reserved_sectors) % 2 ^ 32
      let root_sectors := (root_entry_count * 32 + 511) / 512
      let root_start_sector := (fat_start_sector + num_fats * sectors_per_fat) % 2 ^ 32
      let data_start_sector := (root_start_sector + root_sectors) % 2 ^ 32
      let data_sectors := ((total_sectors + 2 ^ 32 - data_start_sector) % 2 ^ 32
                            + partition_start) % 2 ^ 32
      let cluster_count := data_sectors / sectors_per_cluster
      let fs_type := fat_determine_type cluster_count
      some {
        mounted := true
        fs_type := fs_type
        bytes_per_sector := bytes_per_sector
        sectors_per_cluster := sectors_per_cluster
        reserved_sectors := reserved_sectors
        num_fats := num_fats
        root_entry_count := root_entry_count
        total_sectors := total_sectors
        sectors_per_fat := sectors_per_fat
        root_cluster := if fs_type = .FAT32 then read32 buffer 44 else 0
        fat_start_sector := fat_start_sector
        root_start_sector := root_start_sector
        data_start_sector :=
          if fs_type = .FAT32 then root_start_sector else data_start_sector
        cluster_count := cluster_count
        cluster_size := sectors_per_cluster * 512 % 2 ^ 32
        cwd_cluster := if fs_type = .FAT32 then read32 buffer 44 else 0
      }

theorem fat_determine_type_iff (cc : Nat) :
    (fat_determine_type cc = .FAT12 ↔ cc < 4085) ∧
    (fat_determine_type cc = .FAT16 ↔ 4085 ≤ cc ∧ cc < 65525) ∧
    (fat_determine_type cc = .FAT32 ↔ 65525 ≤ cc) := by
  unfold fat_determine_type
  split_ifs with h1 h2 <;> refine ⟨?_, ?_, ?_⟩ <;> simp <;> omega

/-- Claim C4: for every successfully mounted volume, the FAT type chosen
by mount follows the Microsoft rule: FAT12 iff cluster_count < 4085,
FAT16 iff 4085 <= cluster_count < 65525, FAT32 otherwise. -/
theorem claim_C4_fat_type_rule (disk : Nat → Nat → Nat) (vol : FatVol)
    (h : libresd_fat_mount disk = some vol) :
    (vol.fs_type = .FAT12 ↔ vol.cluster_count < 4085) ∧
    (vol.fs_type = .FAT16 ↔ 4085 ≤ vol.cluster_count ∧ vol.cluster_count < 65525) ∧
    (vol.fs_type = .FAT32 ↔ 65525 ≤ vol.cluster_count) := by
  unfold libresd_fat_mount at h
  dsimp only at h
  split at h
  all_goals split at h
  all_goals try exact Option.noConfusion h
  all_goals split at h
  all_goals try exact Option.noConfusion h
  all_goals rw [Option.some.injEq] at h
  all_goals subst h
  all_goals exact fat_determine_type_iff _

/-- A minimal valid FAT12 boot sector used as a concrete mount input:
512 bytes per sector, 1 sector per cluster, 1 reserved sector, 1 FAT of
1 sector, 16 root entries, 103 total sectors, 0x55AA signature. -/
def test_boot_sector : Nat → Nat := fun i =>
  if i = 12 then 2
  else if i = 13 then 1
  else if i = 14 then 1
  else if i = 16 then 1
  else if i = 17 then 16
  else if i = 19 then 103
  else if i = 22 then 1
  else if i = 510 then 0x55
  else if i = 511 then 0xAA
  else 0

/-- A disk image whose every sector carries the test boot sector (mount
only reads sector 0 of it). -/
def test_disk : Nat → Nat → Nat := fun _ => test_boot_sector

/-- The volume state produced by mounting `test_disk`. -/
def test_vol : FatVol where
  mounted := true
  fs_type := .FAT12
  bytes_per_sector := 512
  sectors_per_cluster := 1
  reserved_sectors := 1
  num_fats := 1
  root_entry_count := 16
  total_sectors := 103
  sectors_per_fat := 1
  root_cluster := 0
  fat_start_sector := 1
  root_start_sector := 2
  data_start_sector := 3
  cluster_count := 100
  cluster_size := 512
  cwd_cluster := 0

/-- Witness for C4: the type rule holds on a concretely mounted volume. -/
theorem claim_C4_fat_type_rule_witness :
    (test_vol.fs_type = .FAT12 ↔ test_vol.cluster_count < 4085) ∧
    (test_vol.fs_type = .FAT16 ↔ 4085 ≤ test_vol.cluster_count ∧ test_vol.cluster_count < 65525) ∧
    (test_vol.fs_type = .FAT32 ↔ 65525 ≤ test_vol.cluster_count) :=
  claim_C4_fat_type_rule test_disk test_vol (by decide)

/-!
## FAT entry access through the shared sector buffer
(`libresd_fat_read_entry`, `libresd_fat_write_entry`, lines 175..343)
-/

/-- State touched by the FAT entry routines: the disk image plus the
volume owned FAT sector buffer with its identity and dirty flag. -/
structure FatBuf where
  disk : Nat → Nat → Nat
  fat_buffer : Nat → Nat
  fat_buffer_sector : Nat
  fat_buffer_dirty : Bool

/-- Buffer fill on the read path of `libresd_fat_read_entry`: on a
sector miss the code reads the wanted sector into the buffer without
flushing it first (only the write path flushes). -/
def fat_load_for_read (st : FatBuf) (fat_sector : Nat) : FatBuf :=
  if st.fat_buffer_sector ≠ fat_sector then
    { st with fat_buffer := st.disk fat_sector, fat_buffer_sector := fat_sector }
  else st

/-- Buffer fill on the write path of `libresd_fat_write_entry`: on a
sector miss a dirty buffer is first written back to its sector, then the
wanted sector is read in (the dirty flag itself is left as is, exactly
as in the C code). -/
def fat_load_for_write (st : FatBuf) (fat_sector : Nat) : FatBuf :=
  if st.fat_buffer_sector ≠ fat_sector then
    let st1 :=
      if st.fat_buffer_dirty then
        { st with disk := upds st.disk st.fat_buffer_sector st.fat_buffer }
      else st
    { st1 with fat_buffer := st1.disk fat_sector, fat_buffer_sector := fat_sector }
  else st

/-- Shallow embedding of `libresd_fat_read_entry`.  For FAT12 an entry
whose two bytes straddle a sector boundary (offset 511) takes its second
byte from the next sector, read directly from the disk into a local
temporary, not through the buffer. -/
def libresd_fat_read_entry (v : FatVol) (st : FatBuf) (cluster : Nat) : Nat × FatBuf :=
  match v.fs_type with
  | .FAT12 =>
    let fat_offset := cluster + cluster / 2
    let fat_sector := v.fat_start_sector + fat_offset / 512
    let offset := fat_offset % 512
    let st := fat_load_for_read st fat_sector
    let value := st.fat_buffer offset
    let value :=
      if offset = 511 then value ||| (st.disk (fat_sector + 1) 0) <<< 8
      else value ||| (st.fat_buffer (offset + 1)) <<< 8
    (if cluster % 2 = 1 then value >>> 4 else value &&& 0x0FFF, st)
  | .FAT16 =>
    let fat_offset := cluster * 2
    let fat_sector := v.fat_start_sector + fat_offset / 512
    let offset := fat_offset % 512
    let st := fat_load_for_read st fat_sector
    (read16 st.fat_buffer offset, st)
  | .FAT32 =>
    let fat_offset := cluster * 4
    let fat_sector := v.fat_start_sector + fat_offset / 512
    let offset := fat_offset % 512
    let st := fat_load_for_read st fat_sector
    (read32 st.fat_buffer offset &&& 0x0FFFFFFF, st)
  | _ => (0, st)

/-- Shallow embedding of `libresd_fat_write_entry`.  For a FAT12 entry at
offset 511 the code updates only the byte at offset 511 and skips the
second byte entirely (the `offset < 511` guards); for FAT32 the top 4
stored bits are preserved. -/
def libresd_fat_write_entry (v : FatVol) (st : FatBuf) (cluster value : Nat) : FatBuf :=
  match v.fs_type with
  | .FAT12 =>
    let fat_offset := cluster + cluster / 2
    let fat_sector := v.fat_start_sector + fat_offset / 512
    let offset := fat_offset % 512
    let st := fat_load_for_write st fat_sector
    let buf := st.fat_buffer
    let buf :=
      if cluster % 2 = 1 then
        let b := upd buf offset ((buf offset &&& 0x0F) ||| (value <<< 4 &&& 0xF0))
        if offset < 511 then upd b (offset + 1) (value >>> 4 &&& 0xFF) else b
      else
        let b := upd buf offset (value &&& 0xFF)
        if offset < 511 then
          upd b (offset + 1) ((buf (offset + 1) &&& 0xF0) ||| (value >>> 8 &&& 0x0F))
        else b
    { st with fat_buffer := buf, fat_buffer_dirty := true }
  | .FAT16 =>
    let fat_offset := cluster * 2
    let fat_sector := v.fat_start_sector + fat_offset / 512
    let offset := fat_offset % 512
    let st := fat_load_for_write st fat_sector
    { st with fat_buffer := write16 st.fat_buffer offset value, fat_buffer_dirty := true }
  | .FAT32 =>
    let fat_offset := cluster * 4
    let fat_sector := v.fat_start_sector + fat_offset / 512
    let offset := fat_offset % 512
    let st := fat_load_for_write st fat_sector
    let merged := (read32 st.fat_buffer offset &&& 0xF0000000) ||| (value &&& 0x0FFFFFFF)
    { st with fat_buffer := write32 st.fat_buffer offset merged, fat_buffer_dirty := true }
  | _ => st

/-- A FAT12 volume large enough to contain the straddling entry of
cluster 341 (entry byte offset 511 within the first FAT sector). -/
def vol12 : FatVol := { test_vol with cluster_count := 1000 }

/-- A fresh FAT buffer state over an all-zero disk: no sector cached
(sentinel 0xFFFFFFFF), clean. -/
def st_fresh : FatBuf where
  disk := fun _ _ => 0
  fat_buffer := fun _ => 0
  fat_buffer_sector := 0xFFFFFFFF
  fat_buffer_dirty := false

/-- Sanity check of the embedding: a FAT16 write/read round trip through
the shared buffer returns the written value. -/
theorem fat16_roundtrip_sanity :
    (libresd_fat_read_entry { test_vol with fs_type := .FAT16 }
      (libresd_fat_write_entry { test_vol with fs_type := .FAT16 } st_fresh 5 0xBEEF) 5).1
      = 0xBEEF := by
  decide

/-- Sanity check of the embedding: a FAT12 write/read round trip for a
non straddling entry returns the written 12-bit value. -/
theorem fat12_roundtrip_sanity :
    (libresd_fat_read_entry vol12
      (libresd_fat_write_entry vol12 st_fresh 340 0xABC) 340).1 = 0xABC := by
  decide

/-- Claim C1 evaluated at the failing input: on FAT12, writing 0xABC to
the straddling entry of cluster 341 (byte offset 511) and reading it
back yields 0x00C, not 0xABC: the write at offset 511 never stores the
second byte (the `offset < 511` guard in `libresd_fat_write_entry`
skips it), while the read combines the buffered first byte with the
untouched first byte of the next sector on disk. -/
theorem claim_C1_fat12_straddle_roundtrip_fails :
    (libresd_fat_read_entry vol12
      (libresd_fat_write_entry vol12 st_fresh 341 0xABC) 341).1 = 0x00C ∧
    (libresd_fat_read_entry vol12
      (libresd_fat_write_entry vol12 st_fresh 341 0xABC) 341).1 ≠ 0xABC := by
  constructor
  · decide
  · decide

/-!
## FAT buffer flush on unmount and sync
(`libresd_fat_unmount` lines 523..541, `libresd_fat_sync` lines 547..566)
-/

/-- The list of sector indices written by `libresd_fat_unmount` (the
payload of every write is the buffered FAT sector): the dirty buffer is
written back to its own sector, and when `num_fats > 1` exactly one more
copy goes to `fat_buffer_sector + sectors_per_fat`. -/
def libresd_fat_unmount_writes (v : FatVol) (st : FatBuf) : List Nat :=
  if st.fat_buffer_dirty = true ∧ st.fat_buffer_sector ≠ 0xFFFFFFFF then
    st.fat_buffer_sector ::
      (if 1 < v.num_fats then [st.fat_buffer_sector + v.sectors_per_fat] else [])
  else []

/-- The list of sector indices written by `libresd_fat_sync`: identical
to the unmount flush, guarded by the mounted flag. -/
def libresd_fat_sync_writes (v : FatVol) (st : FatBuf) : List Nat :=
  if v.mounted = false then []
  else if st.fat_buffer_dirty = true ∧ st.fat_buffer_sector ≠ 0xFFFFFFFF then
    st.fat_buffer_sector ::
      (if 1 < v.num_fats then [st.fat_buffer_sector + v.sectors_per_fat] else [])
  else []

/-- A mounted volume with three FAT copies of 10 sectors each. -/
def vol_3fats : FatVol := { test_vol with num_fats := 3, sectors_per_fat := 10 }

/-- A dirty FAT buffer caching sector 7. -/
def st_dirty7 : FatBuf :=
  { st_fresh with fat_buffer_sector := 7, fat_buffer_dirty := true }

/-- Counterexample to claim C3: with num_fats = 3 the claim requires a
mirror write to sector fat_buffer_sector + 2 * sectors_per_fat = 27, but
unmount and sync write only [7, 17]: the second additional FAT copy is
never written. -/
theorem claim_C3_counterexample :
    libresd_fat_unmount_writes vol_3fats st_dirty7 = [7, 17] ∧
    libresd_fat_sync_writes vol_3fats st_dirty7 = [7, 17] ∧
    (st_dirty7.fat_buffer_sector + 2 * vol_3fats.sectors_per_fat) ∉
      libresd_fat_unmount_writes vol_3fats st_dirty7 ∧
    (st_dirty7.fat_buffer_sector + 2 * vol_3fats.sectors_per_fat) ∉
      libresd_fat_sync_writes vol_3fats st_dirty7 := by
  refine ⟨by decide, by decide, by decide, by decide⟩

/-- Claim C3 as amended: on unmount and sync a dirty FAT buffer is
written back to its own sector and, whenever the volume has at least two
FAT copies, to exactly one mirror location fat_buffer_sector +
sectors_per_fat, regardless of how many additional copies exist. -/
theorem claim_C3_single_mirror (v : FatVol) (st : FatBuf)
    (hd : st.fat_buffer_dirty = true)
    (hs : st.fat_buffer_sector ≠ 0xFFFFFFFF)
    (hn : 2 ≤ v.num_fats)
    (hm : v.mounted = true) :
    libresd_fat_unmount_writes v st =
      [st.fat_buffer_sector, st.fat_buffer_sector + v.sectors_per_fat] ∧
    libresd_fat_sync_writes v st =
      [st.fat_buffer_sector, st.fat_buffer_sector + v.sectors_per_fat] := by
  have hlt : 1 < v.num_fats := hn
  constructor
  · simp [libresd_fat_unmount_writes, hd, hs, hlt]
  · simp [libresd_fat_sync_writes, hd, hs, hlt, hm]

/-- Witness for the amended C3 on a concrete two-FAT volume. -/
theorem claim_C3_single_mirror_witness :
    libresd_fat_unmount_writes { test_vol with num_fats := 2, sectors_per_fat := 10 } st_dirty7 =
      [7, 17] ∧
    libresd_fat_sync_writes { test_vol with num_fats := 2, sectors_per_fat := 10 } st_dirty7 =
      [7, 17] :=
  claim_C3_single_mirror { test_vol with num_fats := 2, sectors_per_fat := 10 } st_dirty7
    (by decide) (by decide) (by decide) (by decide)

/-!
## File layer (src/libresd_file.c)

The file layer calls the FAT through `libresd_fat_read_entry`,
`libresd_fat_next_cluster`, `libresd_fat_alloc_cluster` and
`libresd_fat_write_entry`.  For these claims the FAT is modelled at
entry granularity: `FatTab.entries` maps a cluster index to its FAT
entry value, abstracting the byte packed sector buffer above; the
type specific masks applied by the byte level routines are kept.
Error codes mirror `libresd_err_t`.
-/

inductive LibErr where
  | OK
  | ERR_SPI
  | ERR_FULL
  | ERR_EOF
  | ERR_READ_ONLY
  | ERR_INVALID_HANDLE
  | ERR_INVALID_PARAM
  | ERR_SEEK
  | ERR_NOT_FOUND
  | ERR_NOT_DIR
  | ERR_NOT_FILE
  | ERR_NOT_MOUNTED
  | ERR_NOT_SUPPORTED
  deriving DecidableEq

/-- Entry level view of a mounted FAT used by the file routines. -/
structure FatTab where
  fs_type : FsType
  cluster_count : Nat
  sectors_per_cluster : Nat
  cluster_size : Nat
  data_start_sector : Nat
  last_alloc_cluster : Nat
  free_clusters : Nat
  entries : Nat → Nat

/-- `libresd_fat_cluster_to_sector` (lines 161..164). -/
def fat_cluster_to_sector (t : FatTab) (cluster : Nat) : Nat :=
  if cluster < 2 then 0
  else t.data_start_sector + (cluster - 2) * t.sectors_per_cluster

/-- `libresd_fat_is_eoc` (lines 166..173): the default case of the C
switch answers true. -/
def fat_is_eoc (t : FatTab) (cluster : Nat) : Bool :=
  match t.fs_type with
  | .FAT12 => 0x0FF8 ≤ cluster
  | .FAT16 => 0xFFF8 ≤ cluster
  | .FAT32 => 0x0FFFFFF8 ≤ cluster
  | _ => true

/-- `libresd_fat_next_cluster` (lines 244..252) over the entry view. -/
def fat_next_cluster (t : FatTab) (cluster : Nat) : Nat :=
  if fat_is_eoc t (t.entries cluster) then 0 else t.entries cluster

/-- Entry update as performed by `libresd_fat_write_entry` on the entry
view: FAT12 keeps 12 bits, FAT16 keeps 16 bits, FAT32 keeps 28 bits and
preserves the stored top 4 bits; other types leave the table unchanged. -/
def fat_set_entry (t : FatTab) (cluster value : Nat) : FatTab :=
  match t.fs_type with
  | .FAT12 => { t with entries := upd t.entries cluster (value &&& 0x0FFF) }
  | .FAT16 => { t with entries := upd t.entries cluster (value &&& 0xFFFF) }
  | .FAT32 =>
    { t with
      entries := upd t.entries cluster
        ((t.entries cluster &&& 0xF0000000) ||| (value &&& 0x0FFFFFFF)) }
  | _ => t

/-- The free cluster scan of `libresd_fat_alloc_cluster` (lines
357..367): a do-while loop that increments with wrap-around at
`cluster_count + 2` back to 2, gives up (disk full) when it returns to
the start value, and stops at the first entry equal to 0.  The fuel
`cluster_count + 2` passed by the caller covers every run in which the
C loop terminates. -/
def fat_alloc_scan (t : FatTab) (start : Nat) : Nat → Nat → Nat
  | _, 0 => 0
  | cluster, fuel + 1 =>
    let c := cluster + 1
    let c := if t.cluster_count + 2 ≤ c then 2 else c
    if c = start then 0
    else if t.entries c = 0 then c
    else fat_alloc_scan t start c fuel

/-- `libresd_fat_alloc_cluster` (lines 345..387): scan for a free
cluster, mark it end-of-chain, link it to `prev_cluster` when one is
given, update the allocation hint and the cached free count.  Returns
0 when the disk is full (and for the default switch case). -/
def libresd_fat_alloc_cluster (t : FatTab) (prev_cluster : Nat) : Nat × FatTab :=
  let eoc : Option Nat :=
    match t.fs_type with
    | .FAT12 => some 0x0FFF
    | .FAT16 => some 0xFFFF
    | .FAT32 => some 0x0FFFFFFF
    | _ => none
  match eoc with
  | none => (0, t)
  | some eoc =>
    let c := fat_alloc_scan t t.last_alloc_cluster t.last_alloc_cluster (t.cluster_count + 2)
    if c = 0 then (0, t)
    else
      let t := fat_set_entry t c eoc
      let t := if 2 ≤ prev_cluster then fat_set_entry t prev_cluster c else t
      (c, { t with
        last_alloc_cluster := c,
        free_clusters :=
          if t.free_clusters ≠ 0xFFFFFFFF then t.free_clusters - 1 else t.free_clusters })

/-- The file handle `libresd_file_t`. -/
structure FileH where
  is_open : Bool
  mode : Nat
  first_cluster : Nat
  current_cluster : Nat
  file_size : Nat
  position : Nat
  cluster_offset : Nat
  dir_sector : Nat
  dir_offset : Nat
  buffer : Nat → Nat
  buffer_sector : Nat
  buffer_dirty : Bool

/-- Zero fill of `n` consecutive sectors, as done with a zeroed buffer
when a fresh cluster is allocated. -/
def zero_sectors (d : Nat → Nat → Nat) (sector n : Nat) : Nat → Nat → Nat :=
  fun s b => if sector ≤ s ∧ s < sector + n then 0 else d s b

/-- Buffer fill on the read path of `libresd_fat_read` (lines 190..203):
on a sector miss a dirty buffer is flushed (clearing the dirty flag),
then the wanted sector is read in. -/
def file_load_sector (f : FileH) (d : Nat → Nat → Nat) (sector : Nat) :
    FileH × (Nat → Nat → Nat) :=
  if f.buffer_sector ≠ sector then
    let d2 := if f.buffer_dirty then upds d f.buffer_sector f.buffer else d
    ({ f with buffer := d2 sector, buffer_sector := sector, buffer_dirty := false }, d2)
  else (f, d)

/-- Buffer fill on the write path of `libresd_fat_write` (lines
445..460): flush a dirty buffer on a miss, then read the sector in only
when the write is partial (nonzero offset or fewer than 512 bytes
remaining); a full sector write leaves the buffer contents stale and
just retags it. -/
def file_load_sector_for_write (f : FileH) (d : Nat → Nat → Nat)
    (sector offset_in_sector size : Nat) : FileH × (Nat → Nat → Nat) :=
  if f.buffer_sector ≠ sector then
    let d2 := if f.buffer_dirty then upds d f.buffer_sector f.buffer else d
    if offset_in_sector ≠ 0 ∨ size < 512 then
      ({ f with buffer := d2 sector, buffer_sector := sector, buffer_dirty := false }, d2)
    else
      ({ f with buffer_sector := sector, buffer_dirty := false }, d2)
  else (f, d)

/-- State threaded through the read loop. -/
structure ReadState where
  file : FileH
  disk : Nat → Nat → Nat
  dest : Nat → Nat
  total : Nat

/-- The while loop of `libresd_fat_read` (lines 177..228).  Each
iteration copies at least one byte, so fuel equal to the remaining size
(as passed by `libresd_fat_read`) never runs out before `size` hits 0
or the loop breaks. -/
def fat_read_loop (t : FatTab) : Nat → ReadState → Nat → ReadState
  | 0, s, _ => s
  | fuel + 1, s, size =>
    if size = 0 then s
    else
      let offset_in_cluster := s.file.cluster_offset
      let sector_in_cluster := offset_in_cluster / 512
      let offset_in_sector := offset_in_cluster % 512
      if s.file.current_cluster < 2 then s
      else
        let sector := fat_cluster_to_sector t s.file.current_cluster + sector_in_cluster
        let fd := file_load_sector s.file s.disk sector
        let f := fd.1
        let d := fd.2
        let to_read := min (512 - offset_in_sector) size
        let dest := fun j =>
          if s.total ≤ j ∧ j < s.total + to_read then f.buffer (offset_in_sector + (j - s.total))
          else s.dest j
        let f := { f with
          position := f.position + to_read,
          cluster_offset := f.cluster_offset + to_read }
        let total := s.total + to_read
        if t.cluster_size ≤ f.cluster_offset then
          let next := fat_next_cluster t f.current_cluster
          if next = 0 then ⟨f, d, dest, total⟩
          else fat_read_loop t fuel
            ⟨{ f with current_cluster := next, cluster_offset := 0 }, d, dest, total⟩
            (size - to_read)
        else fat_read_loop t fuel ⟨f, d, dest, total⟩ (size - to_read)

/-- Result of `libresd_fat_read`. -/
structure ReadResult where
  err : LibErr
  bytes_read : Nat
  file : FileH
  disk : Nat → Nat → Nat
  dest : Nat → Nat

/-- Shallow embedding of `libresd_fat_read` (lines 155..233): guard
checks, the end-of-file check `position >= file_size`, the clamp of the
requested size to the remaining file bytes, the copy loop, and the
final status (OK when at least one byte was transferred, Eof
otherwise). -/
def libresd_fat_read (t : FatTab) (f : FileH) (d : Nat → Nat → Nat)
    (dest : Nat → Nat) (size : Nat) : ReadResult :=
  if f.is_open = false then ⟨.ERR_INVALID_HANDLE, 0, f, d, dest⟩
  else if f.mode &&& 0x01 = 0 then ⟨.ERR_READ_ONLY, 0, f, d, dest⟩
  else if f.file_size ≤ f.position then ⟨.ERR_EOF, 0, f, d, dest⟩
  else
    let size := if f.file_size < f.position + size then f.file_size - f.position else size
    let s := fat_read_loop t size ⟨f, d, dest, 0⟩ size
    ⟨if 0 < s.total then .OK else .ERR_EOF, s.total, s.file, s.disk, s.dest⟩

/-- State threaded through the write loop; `err` is the local
`libresd_err_t err` variable of the C function, which records a failed
allocation but is never returned. -/
structure WriteState where
  file : FileH
  fat : FatTab
  disk : Nat → Nat → Nat
  total : Nat
  err : LibErr

/-- First-cluster allocation step of the write loop (lines 403..422):
when the handle has no current cluster, allocate one, zero fill it, and
point the handle at it.  The Bool signals the disk-full break. -/
def fat_write_alloc_first (s : WriteState) : WriteState × Bool :=
  if s.file.current_cluster < 2 then
    let ar := libresd_fat_alloc_cluster s.fat 0
    if ar.1 = 0 then ({ s with err := .ERR_FULL }, true)
    else
      let f := s.file
      let f := { f with
        first_cluster := if f.first_cluster < 2 then ar.1 else f.first_cluster,
        current_cluster := ar.1,
        cluster_offset := 0,
        buffer := fun _ => 0 }
      let sec := fat_cluster_to_sector ar.2 ar.1
      ({ s with
          fat := ar.2,
          file := f,
          disk := zero_sectors s.disk sec ar.2.sectors_per_cluster }, false)
  else (s, false)

/-- Chain-extension step of the write loop (lines 424..436): at a
cluster boundary follow the chain, allocating and linking a new cluster
at its end.  The Bool signals the disk-full break. -/
def fat_write_extend_chain (s : WriteState) : WriteState × Bool :=
  if s.fat.cluster_size ≤ s.file.cluster_offset then
    let next := fat_next_cluster s.fat s.file.current_cluster
    if next = 0 then
      let ar := libresd_fat_alloc_cluster s.fat s.file.current_cluster
      if ar.1 = 0 then ({ s with err := .ERR_FULL }, true)
      else
        ({ s with
            fat := ar.2,
            file := { s.file with current_cluster := ar.1, cluster_offset := 0 } },
         false)
    else
      ({ s with file := { s.file with current_cluster := next, cluster_offset := 0 } },
       false)
  else (s, false)

/-- The while loop of `libresd_fat_write` (lines 401..480): allocate the
first cluster for an empty file (zero filling it), extend the chain at
a cluster boundary, then copy through the file buffer (or retag it for
a full sector write).  A failed allocation sets the local error and
breaks.  Each completed iteration writes at least one byte, so fuel
equal to the requested size never runs out. -/
def fat_write_loop : Nat → WriteState → (Nat → Nat) → Nat → WriteState
  | 0, s, _, _ => s
  | fuel + 1, s, src, size =>
    if size = 0 then s
    else
      let step1 := fat_write_alloc_first s
      if step1.2 then step1.1
      else
        let s := step1.1
        let step2 := fat_write_extend_chain s
        if step2.2 then step2.1
        else
          let s := step2.1
          let offset_in_cluster := s.file.cluster_offset
          let sector_in_cluster := offset_in_cluster / 512
          let offset_in_sector := offset_in_cluster % 512
          let sector := fat_cluster_to_sector s.fat s.file.current_cluster + sector_in_cluster
          let fd := file_load_sector_for_write s.file s.disk sector offset_in_sector size
          let f := fd.1
          let d := fd.2
          let to_write := min (512 - offset_in_sector) size
          let buf := fun j =>
            if offset_in_sector ≤ j ∧ j < offset_in_sector + to_write then
              src (s.total + (j - offset_in_sector))
            else f.buffer j
          let f := { f with
            buffer := buf,
            buffer_dirty := true,
            position := f.position + to_write,
            cluster_offset := f.cluster_offset + to_write }
          let f := { f with
            file_size := if f.file_size < f.position then f.position else f.file_size }
          fat_write_loop fuel
            { s with file := f, disk := d, total := s.total + to_write }
            src (size - to_write)

/-- Result of `libresd_fat_write`. -/
structure WriteResult where
  err : LibErr
  bytes_written : Nat
  fat : FatTab
  file : FileH
  disk : Nat → Nat → Nat

/-- Shallow embedding of `libresd_fat_write` (lines 386..485): after the
guard checks the loop runs, and the function returns LIBRESD_OK no
matter how the loop ended; a disk-full break is observable only through
the bytes_written count. -/
def libresd_fat_write (t : FatTab) (f : FileH) (d : Nat → Nat → Nat)
    (src : Nat → Nat) (size : Nat) : WriteResult :=
  if f.is_open = false then ⟨.ERR_INVALID_HANDLE, 0, t, f, d⟩
  else if f.mode &&& 0x02 = 0 ∧ f.mode &&& 0x04 = 0 then ⟨.ERR_READ_ONLY, 0, t, f, d⟩
  else
    let s := fat_write_loop size ⟨f, t, d, 0, .OK⟩ src size
    ⟨.OK, s.total, s.fat, s.file, s.disk⟩

/-!
## Seek and tell (src/libresd_file.c lines 772..850)
-/

inductive Whence where
  | seek_set
  | seek_cur
  | seek_end
  deriving DecidableEq

/-- The cluster walk of `libresd_fat_seek` (lines 813..835).  The
`uint32_t` subtraction computing the bytes remaining in the current
cluster is modelled with the explicit wrap.  One iteration either
finishes (target inside the current cluster, or end of chain) or steps
to the next chain cluster after advancing the position by the remaining
cluster bytes; for any state with cluster_offset <= cluster_size <
2^32 the fuel `new_pos + 2` passed by the caller outlasts the loop. -/
def fat_seek_walk (t : FatTab) (new_pos : Nat) : Nat → FileH → FileH
  | 0, f => f
  | fuel + 1, f =>
    if f.position < new_pos ∧ 2 ≤ f.current_cluster then
      let remaining := (t.cluster_size + 2 ^ 32 - f.cluster_offset % 2 ^ 32) % 2 ^ 32
      let to_advance := new_pos - f.position
      if remaining ≤ to_advance then
        let next := fat_next_cluster t f.current_cluster
        if next = 0 then
          { f with position := f.position + remaining, cluster_offset := 0 }
        else
          fat_seek_walk t new_pos fuel
            { f with current_cluster := next, position := f.position + remaining,
                     cluster_offset := 0 }
      else
        { f with position := new_pos, cluster_offset := f.cluster_offset + to_advance }
    else f

/-- The tail of `libresd_fat_seek` after the target position has been
computed: clamp to the file size unless the handle was opened for
writing, restart the walk from the first cluster when seeking backwards
or to 0, then walk the chain. -/
def fat_seek_to (t : FatTab) (f : FileH) (np : Nat) : LibErr × FileH :=
  let new_pos := if f.mode &&& 0x02 = 0 ∧ f.file_size < np then f.file_size else np
  let f :=
    if new_pos < f.position ∨ new_pos = 0 then
      { f with current_cluster := f.first_cluster, cluster_offset := 0, position := 0 }
    else f
  (.OK, fat_seek_walk t new_pos (new_pos + 2) f)

/-- Shallow embedding of `libresd_fat_seek` (lines 772..838): the target
is computed from the whence mode with the C bounds checks on negative
offsets; position arithmetic wraps at 2^32 like the `uint32_t` it is. -/
def libresd_fat_seek (t : FatTab) (f : FileH) (offset : Int) (whence : Whence) :
    LibErr × FileH :=
  if f.is_open = false then (.ERR_INVALID_HANDLE, f)
  else
    match whence with
    | .seek_set =>
      if offset < 0 then (.ERR_SEEK, f)
      else fat_seek_to t f (offset.toNat % 2 ^ 32)
    | .seek_cur =>
      if offset < 0 ∧ f.position < (-offset).toNat then (.ERR_SEEK, f)
      else fat_seek_to t f (((f.position : Int) + offset).toNat % 2 ^ 32)
    | .seek_end =>
      if offset < 0 ∧ f.file_size < (-offset).toNat then (.ERR_SEEK, f)
      else fat_seek_to t f (((f.file_size : Int) + offset).toNat % 2 ^ 32)

/-- `libresd_fat_tell` (lines 840..842). -/
def libresd_fat_tell (f : FileH) : Nat :=
  f.position

/-- A mounted FAT16 table with no free cluster anywhere (every entry
nonzero): allocation always fails with disk full. -/
def t_full : FatTab where
  fs_type := .FAT16
  cluster_count := 20
  sectors_per_cluster := 1
  cluster_size := 512
  data_start_sector := 10
  last_alloc_cluster := 5
  free_clusters := 0xFFFFFFFF
  entries := fun _ => 0xFFFF

/-- A freshly created empty file opened for writing. -/
def f_empty : FileH where
  is_open := true
  mode := 0x02
  first_cluster := 0
  current_cluster := 0
  file_size := 0
  position := 0
  cluster_offset := 0
  dir_sector := 0
  dir_offset := 0
  buffer := fun _ => 0
  buffer_sector := 0xFFFFFFFF
  buffer_dirty := false

/-- Claim C10: whenever the guard checks pass, `libresd_fat_write`
returns LIBRESD_OK, even when cluster allocation fails mid-write; on a
completely full disk the loop records ERR_FULL internally, yet the
function returns OK with bytes_written = 0 < 10, so the shortfall is
observable only through the byte count. -/
theorem claim_C10_full_error_swallowed :
    (∀ (t : FatTab) (f : FileH) (d : Nat → Nat → Nat) (src : Nat → Nat) (size : Nat),
      f.is_open = true → (f.mode &&& 0x02 ≠ 0 ∨ f.mode &&& 0x04 ≠ 0) →
      (libresd_fat_write t f d src size).err = .OK) ∧
    (fat_write_loop 10 ⟨f_empty, t_full, fun _ _ => 0, 0, .OK⟩ (fun _ => 0) 10).err =
      .ERR_FULL ∧
    (libresd_fat_write t_full f_empty (fun _ _ => 0) (fun _ => 0) 10).err = .OK ∧
    (libresd_fat_write t_full f_empty (fun _ _ => 0) (fun _ => 0) 10).bytes_written = 0 := by
  refine ⟨?_, by decide, by decide, by decide⟩
  intro t f d src size hopen hmode
  unfold libresd_fat_write
  split
  · rename_i hfalse
    rw [hopen] at hfalse
    exact absurd hfalse (by decide)
  · split
    · rename_i hro
      rcases hmode with hm | hm
      · exact absurd hro.1 hm
      · exact absurd hro.2 hm
    · rfl

/-- Witness for C10: the universally quantified conjunct applied at the
concrete full-disk input. -/
theorem claim_C10_full_error_swallowed_witness :
    (libresd_fat_write t_full f_empty (fun _ _ => 0) (fun _ => 0) 10).err = .OK :=
  claim_C10_full_error_swallowed.1 t_full f_empty (fun _ _ => 0) (fun _ => 0) 10
    rfl (Or.inl (by decide))

theorem file_load_sector_fields (f : FileH) (d : Nat → Nat → Nat) (sector : Nat) :
    (file_load_sector f d sector).1.position = f.position ∧
    (file_load_sector f d sector).1.file_size = f.file_size ∧
    (file_load_sector f d sector).1.cluster_offset = f.cluster_offset ∧
    (file_load_sector f d sector).1.current_cluster = f.current_cluster := by
  unfold file_load_sector
  split <;> exact ⟨rfl, rfl, rfl, rfl⟩

theorem file_load_sector_for_write_fields (f : FileH) (d : Nat → Nat → Nat)
    (sector offset_in_sector size : Nat) :
    (file_load_sector_for_write f d sector offset_in_sector size).1.position = f.position ∧
    (file_load_sector_for_write f d sector offset_in_sector size).1.file_size = f.file_size ∧
    (file_load_sector_for_write f d sector offset_in_sector size).1.cluster_offset =
      f.cluster_offset := by
  unfold file_load_sector_for_write
  dsimp only
  split
  · split <;> exact ⟨rfl, rfl, rfl⟩
  · exact ⟨rfl, rfl, rfl⟩

/-- Invariant of the read loop: the position never passes the file size
provided the remaining byte budget fits in the file, and the loop never
changes the file size. -/
theorem fat_read_loop_invariant (t : FatTab) :
    ∀ (fuel : Nat) (s : ReadState) (size : Nat),
      s.file.position + size ≤ s.file.file_size →
      (fat_read_loop t fuel s size).file.position ≤
        (fat_read_loop t fuel s size).file.file_size := by
  intro fuel
  induction fuel with
  | zero =>
    intro s size h
    simpa [fat_read_loop] using by omega
  | succ fuel ih =>
    intro s size h
    rw [fat_read_loop]
    split
    · omega
    · rename_i hsz
      dsimp only
      split
      · omega
      · rename_i hcl
        have hl := file_load_sector_fields s.file s.disk
          (fat_cluster_to_sector t s.file.current_cluster + s.file.cluster_offset / 512)
        set fd := file_load_sector s.file s.disk
          (fat_cluster_to_sector t s.file.current_cluster + s.file.cluster_offset / 512)
        obtain ⟨hp, hfs, hco, hcc⟩ := hl
        have htr : min (512 - s.file.cluster_offset % 512) size ≤ size := Nat.min_le_right _ _
        split
        · split
          · dsimp only
            omega
          · apply ih
            dsimp only
            omega
        · apply ih
          dsimp only
          omega

theorem fat_write_alloc_first_fields (s : WriteState) :
    (fat_write_alloc_first s).1.file.position = s.file.position ∧
    (fat_write_alloc_first s).1.file.file_size = s.file.file_size := by
  unfold fat_write_alloc_first
  dsimp only
  split
  · split <;> exact ⟨rfl, rfl⟩
  · exact ⟨rfl, rfl⟩

theorem fat_write_extend_chain_fields (s : WriteState) :
    (fat_write_extend_chain s).1.file.position = s.file.position ∧
    (fat_write_extend_chain s).1.file.file_size = s.file.file_size := by
  unfold fat_write_extend_chain
  dsimp only
  split
  · split
    · split <;> exact ⟨rfl, rfl⟩
    · exact ⟨rfl, rfl⟩
  · exact ⟨rfl, rfl⟩

/-- Invariant of the write loop: the file size is kept at or above the
position (the loop itself re-establishes it after every copied chunk,
and preserves it through the allocation steps and breaks). -/
theorem fat_write_loop_invariant :
    ∀ (fuel : Nat) (s : WriteState) (src : Nat → Nat) (size : Nat),
      s.file.position ≤ s.file.file_size →
      (fat_write_loop fuel s src size).file.position ≤
        (fat_write_loop fuel s src size).file.file_size := by
  intro fuel
  induction fuel with
  | zero =>
    intro s src size h
    simpa [fat_write_loop] using h
  | succ fuel ih =>
    intro s src size h
    rw [fat_write_loop]
    split
    · exact h
    · dsimp only
      obtain ⟨h1p, h1s⟩ := fat_write_alloc_first_fields s
      split
      · omega
      · obtain ⟨h2p, h2s⟩ := fat_write_extend_chain_fields (fat_write_alloc_first s).1
        split
        · omega
        · set s2 := (fat_write_extend_chain (fat_write_alloc_first s).1).1
          obtain ⟨h3p, h3s, _⟩ := file_load_sector_for_write_fields s2.file s2.disk
            (fat_cluster_to_sector s2.fat s2.file.current_cluster +
              s2.file.cluster_offset / 512)
            (s2.file.cluster_offset % 512) size
          apply ih
          dsimp only
          split <;> omega

/-- Claim C7 as amended: starting from a state whose position does not
exceed the file size, a read leaves position <= file_size and a write
leaves file_size >= position; and any read that begins at or after
file_size returns Eof with 0 bytes transferred and an unchanged handle.
The unconditioned form of the first conjunct is refuted by
claim_C7_counterexample: a write-mode seek can place the position past
the file size and a subsequent read keeps it there. -/
theorem claim_C7_position_size_invariants
    (t : FatTab) (f : FileH) (d : Nat → Nat → Nat) (dest src : Nat → Nat) (size : Nat)
    (hle : f.position ≤ f.file_size) :
    ((libresd_fat_read t f d dest size).file.position ≤
      (libresd_fat_read t f d dest size).file.file_size) ∧
    ((libresd_fat_write t f d src size).file.position ≤
      (libresd_fat_write t f d src size).file.file_size) ∧
    (∀ f2 : FileH, f2.is_open = true → f2.mode &&& 0x01 ≠ 0 → f2.file_size ≤ f2.position →
      (libresd_fat_read t f2 d dest size).err = .ERR_EOF ∧
      (libresd_fat_read t f2 d dest size).bytes_read = 0 ∧
      (libresd_fat_read t f2 d dest size).file = f2) := by
  refine ⟨?_, ?_, ?_⟩
  · unfold libresd_fat_read
    split
    · exact hle
    · split
      · exact hle
      · split
        · exact hle
        · dsimp only
          apply fat_read_loop_invariant
          dsimp only
          split <;> omega
  · unfold libresd_fat_write
    split
    · exact hle
    · split
      · exact hle
      · dsimp only
        exact fat_write_loop_invariant size ⟨f, t, d, 0, .OK⟩ src size hle
  · intro f2 hopen hmode heof
    unfold libresd_fat_read
    rw [if_neg (by rw [hopen]; decide), if_neg (by simpa using hmode), if_pos heof]
    exact ⟨rfl, rfl, rfl⟩

/-- Witness for the amended C7 at a concrete state. -/
theorem claim_C7_position_size_invariants_witness :
    ((libresd_fat_read t_full f_empty (fun _ _ => 0) (fun _ => 0) 10).file.position ≤
      (libresd_fat_read t_full f_empty (fun _ _ => 0) (fun _ => 0) 10).file.file_size) ∧
    ((libresd_fat_write t_full f_empty (fun _ _ => 0) (fun _ => 0) 10).file.position ≤
      (libresd_fat_write t_full f_empty (fun _ _ => 0) (fun _ => 0) 10).file.file_size) ∧
    (∀ f2 : FileH, f2.is_open = true → f2.mode &&& 0x01 ≠ 0 → f2.file_size ≤ f2.position →
      (libresd_fat_read t_full f2 (fun _ _ => 0) (fun _ => 0) 10).err = .ERR_EOF ∧
      (libresd_fat_read t_full f2 (fun _ _ => 0) (fun _ => 0) 10).bytes_read = 0 ∧
      (libresd_fat_read t_full f2 (fun _ _ => 0) (fun _ => 0) 10).file = f2) :=
  claim_C7_position_size_invariants t_full f_empty (fun _ _ => 0) (fun _ => 0) (fun _ => 0) 10
    (by decide)

/-- A FAT16 table carrying the two-cluster chain 5 -> 6 -> EOC. -/
def t_chain56 : FatTab where
  fs_type := .FAT16
  cluster_count := 20
  sectors_per_cluster := 1
  cluster_size := 512
  data_start_sector := 10
  last_alloc_cluster := 2
  free_clusters := 0xFFFFFFFF
  entries := fun c => if c = 5 then 6 else if c = 6 then 0xFFFF else 0

/-- A 5-byte file on that chain opened for reading and writing. -/
def f_rw5 : FileH :=
  { f_empty with mode := 0x03, first_cluster := 5, current_cluster := 5, file_size := 5 }

/-- Counterexample to claim C7 as stated: seeking to 600 in write mode
(the chain covers 1024 bytes) and then reading returns Eof with 0 bytes
but leaves the handle at position 600, beyond the file size 5 - so it
is not true that after any read the position is at most the file size. -/
theorem claim_C7_counterexample :
    (libresd_fat_read t_chain56 (libresd_fat_seek t_chain56 f_rw5 600 .seek_set).2
        (fun _ _ => 0) (fun _ => 0) 10).file.position = 600 ∧
    (libresd_fat_read t_chain56 (libresd_fat_seek t_chain56 f_rw5 600 .seek_set).2
        (fun _ _ => 0) (fun _ => 0) 10).file.file_size = 5 ∧
    (libresd_fat_read t_chain56 (libresd_fat_seek t_chain56 f_rw5 600 .seek_set).2
        (fun _ _ => 0) (fun _ => 0) 10).err = .ERR_EOF ∧
    (libresd_fat_read t_chain56 (libresd_fat_seek t_chain56 f_rw5 600 .seek_set).2
        (fun _ _ => 0) (fun _ => 0) 10).bytes_read = 0 := by
  refine ⟨by decide, by decide, by decide, by decide⟩

/-- The cluster chain of a file as the walk of `fat_next_cluster` sees
it: the listed clusters are all at least 2, follow one another in the
FAT, and the entry of the last one is an end-of-chain mark (so
`fat_next_cluster` answers 0 there); an empty chain is a handle with no
clusters (first_cluster 0). -/
def chain_ok (t : FatTab) : Nat → List Nat → Prop
  | c, [] => c = 0
  | c, c0 :: rest => c = c0 ∧ 2 ≤ c0 ∧ chain_ok t (fat_next_cluster t c0) rest

theorem fat_seek_walk_done (t : FatTab) (np fuel : Nat) (f : FileH)
    (h : ¬ f.position < np) : fat_seek_walk t np fuel f = f := by
  cases fuel with
  | zero => rfl
  | succ fuel =>
    rw [fat_seek_walk]
    rw [if_neg]
    intro hc
    exact h hc.1

/-- The seek walk reaches any target position covered by the cluster
chain, starting from a cluster-aligned state. -/
theorem fat_seek_walk_reaches (t : FatTab)
    (hcs : 0 < t.cluster_size) (hcs2 : t.cluster_size < 2 ^ 32) :
    ∀ (L : List Nat) (f : FileH) (np fuel : Nat),
      chain_ok t f.current_cluster L →
      f.cluster_offset = 0 →
      f.position ≤ np →
      np ≤ f.position + L.length * t.cluster_size →
      np - f.position < fuel →
      (fat_seek_walk t np fuel f).position = np := by
  intro L
  induction L with
  | nil =>
    intro f np fuel hch hoff hle hub _
    have hpos : f.position = np := by
      simp only [chain_ok, List.length_nil] at hch hub
      omega
    rw [fat_seek_walk_done t np fuel f (by omega)]
    exact hpos
  | cons c0 rest ih =>
    intro f np fuel hch hoff hle hub hfuel
    obtain ⟨hc, hc2, hchain⟩ := hch
    by_cases hlt : f.position < np
    · cases fuel with
      | zero => omega
      | succ fu =>
        rw [fat_seek_walk]
        rw [if_pos ⟨hlt, by omega⟩]
        have hrem : (t.cluster_size + 2 ^ 32 - f.cluster_offset % 2 ^ 32) % 2 ^ 32 =
            t.cluster_size := by
          rw [hoff]
          have h32 : (2 : Nat) ^ 32 = 4294967296 := by norm_num
          rw [h32] at hcs2 ⊢
          omega
        rw [hrem]
        dsimp only
        split
        · rename_i hadv
          cases rest with
          | nil =>
            have hz : fat_next_cluster t c0 = 0 := hchain
            rw [← hc] at hz
            rw [if_pos hz]
            dsimp only
            simp only [List.length_cons, List.length_nil] at hub
            omega
          | cons c1 rs =>
            have hnz : fat_next_cluster t f.current_cluster ≠ 0 := by
              rw [hc]
              obtain ⟨he, he2, _⟩ := hchain
              omega
            rw [if_neg hnz]
            apply ih
            · dsimp only
              rw [hc]
              exact hchain
            · rfl
            · dsimp only
              omega
            · dsimp only
              simp only [List.length_cons] at hub ⊢
              have hmul : (rs.length + 1 + 1) * t.cluster_size =
                  (rs.length + 1) * t.cluster_size + t.cluster_size := by ring
              omega
            · dsimp only
              omega
        · dsimp only
    · rw [fat_seek_walk_done t np fuel f hlt]
      omega

theorem fat_seek_walk_preserves (t : FatTab) (np : Nat) :
    ∀ (fuel : Nat) (f : FileH),
      (fat_seek_walk t np fuel f).is_open = f.is_open ∧
      (fat_seek_walk t np fuel f).mode = f.mode ∧
      (fat_seek_walk t np fuel f).file_size = f.file_size := by
  intro fuel
  induction fuel with
  | zero => intro f; exact ⟨rfl, rfl, rfl⟩
  | succ fuel ih =>
    intro f
    rw [fat_seek_walk]
    split
    · dsimp only
      split
      · split
        · exact ⟨rfl, rfl, rfl⟩
        · exact ih _
      · exact ⟨rfl, rfl, rfl⟩
    · exact ⟨rfl, rfl, rfl⟩

theorem fat_seek_to_preserves (t : FatTab) (f : FileH) (np : Nat) :
    (fat_seek_to t f np).2.is_open = f.is_open ∧
    (fat_seek_to t f np).2.mode = f.mode ∧
    (fat_seek_to t f np).2.file_size = f.file_size := by
  unfold fat_seek_to
  dsimp only
  split
  all_goals try split
  all_goals exact fat_seek_walk_preserves t _ _ _

theorem libresd_fat_seek_preserves (t : FatTab) (f : FileH) (offset : Int) (w : Whence) :
    (libresd_fat_seek t f offset w).2.is_open = f.is_open ∧
    (libresd_fat_seek t f offset w).2.mode = f.mode ∧
    (libresd_fat_seek t f offset w).2.file_size = f.file_size := by
  unfold libresd_fat_seek
  split
  · exact ⟨rfl, rfl, rfl⟩
  · cases w <;> dsimp only <;> split
    all_goals try exact ⟨rfl, rfl, rfl⟩
    all_goals exact fat_seek_to_preserves t f _

/-- Position reached by seek(n, Set) from a cluster-aligned handle at
position 0, when the (read-mode clamped) target is covered by the
cluster chain. -/
theorem libresd_fat_seek_set_position (t : FatTab) (f : FileH) (L : List Nat) (n : Nat)
    (hopen : f.is_open = true)
    (hchain : chain_ok t f.first_cluster L)
    (hpos : f.position = 0) (hoff : f.cluster_offset = 0)
    (hcur : f.current_cluster = f.first_cluster)
    (hcs : 0 < t.cluster_size) (hcs2 : t.cluster_size < 2 ^ 32)
    (hn : n < 2 ^ 32)
    (htar : (if f.mode &&& 0x02 = 0 ∧ f.file_size < n then f.file_size else n) ≤
            L.length * t.cluster_size) :
    (libresd_fat_seek t f (n : Int) .seek_set).2.position =
      (if f.mode &&& 0x02 = 0 ∧ f.file_size < n then f.file_size else n) := by
  unfold libresd_fat_seek
  rw [if_neg (by rw [hopen]; decide)]
  dsimp only
  rw [if_neg (by simp)]
  have hnp : ((n : Int).toNat % 2 ^ 32) = n := by
    simp only [Int.toNat_natCast]
    omega
  rw [hnp]
  unfold fat_seek_to
  dsimp only
  set target := if f.mode &&& 0x02 = 0 ∧ f.file_size < n then f.file_size else n with htd
  have htlt : target - 0 < target + 2 := by omega
  by_cases h0 : target < f.position ∨ target = 0
  · rw [if_pos h0]
    apply fat_seek_walk_reaches t hcs hcs2 L
    · exact hchain
    · rfl
    · exact Nat.zero_le _
    · dsimp only
      omega
    · dsimp only
      omega
  · rw [if_neg h0]
    apply fat_seek_walk_reaches t hcs hcs2 L
    · rw [hcur]
      exact hchain
    · exact hoff
    · omega
    · omega
    · omega

/-- seek(0, Cur) leaves the position unchanged (for read-only handles
this needs position <= file_size, which the clamp of any previous seek
guarantees). -/
theorem libresd_fat_seek_cur_zero (t : FatTab) (f : FileH)
    (hopen : f.is_open = true)
    (hp32 : f.position < 2 ^ 32)
    (hcl : f.mode &&& 0x02 = 0 → f.position ≤ f.file_size) :
    (libresd_fat_seek t f 0 .seek_cur).2.position = f.position := by
  unfold libresd_fat_seek
  rw [if_neg (by rw [hopen]; decide)]
  dsimp only
  rw [if_neg (by simp)]
  have hnp : (((f.position : Int) + 0).toNat % 2 ^ 32) = f.position := by
    simp only [Int.add_zero, Int.toNat_natCast]
    omega
  rw [hnp]
  unfold fat_seek_to
  dsimp only
  have hclamp : (if f.mode &&& 0x02 = 0 ∧ f.file_size < f.position then f.file_size
      else f.position) = f.position := by
    split
    · rename_i hcond
      have := hcl hcond.1
      omega
    · rfl
  rw [hclamp]
  by_cases h0 : f.position < f.position ∨ f.position = 0
  · rw [if_pos h0]
    have hz : f.position = 0 := by omega
    rw [fat_seek_walk_done t _ _ _ (by dsimp only; omega)]
    exact hz.symm
  · rw [if_neg h0]
    rw [fat_seek_walk_done t _ _ f (by omega)]

/-- Claim C8 as amended: seek(n, Set) followed by seek(0, Cur) leaves
tell() at n clamped to the file size in read-only mode, but only as far
as the allocated cluster chain reaches: the amended statement requires
the (clamped) target to be covered by the chain.  (The original claim
for write mode with n past the chain is refuted by
claim_C8_counterexample: the walk stops at the end of the chain.) -/
theorem claim_C8_seek_then_tell (t : FatTab) (f : FileH) (L : List Nat) (n : Nat)
    (hopen : f.is_open = true)
    (hchain : chain_ok t f.first_cluster L)
    (hpos : f.position = 0) (hoff : f.cluster_offset = 0)
    (hcur : f.current_cluster = f.first_cluster)
    (hcs : 0 < t.cluster_size) (hcs2 : t.cluster_size < 2 ^ 32)
    (hn : n < 2 ^ 32) :
    (f.mode &&& 0x02 ≠ 0 → n ≤ L.length * t.cluster_size →
      libresd_fat_tell
        (libresd_fat_seek t (libresd_fat_seek t f (n : Int) .seek_set).2 0 .seek_cur).2 = n) ∧
    (f.mode &&& 0x02 = 0 → min n f.file_size ≤ L.length * t.cluster_size →
      libresd_fat_tell
        (libresd_fat_seek t (libresd_fat_seek t f (n : Int) .seek_set).2 0 .seek_cur).2 =
        min n f.file_size) := by
  obtain ⟨hk1, hk2, hk3⟩ := libresd_fat_seek_preserves t f (n : Int) .seek_set
  constructor
  · intro hw hcov
    have htar : (if f.mode &&& 0x02 = 0 ∧ f.file_size < n then f.file_size else n) = n := by
      rw [if_neg]
      intro hcond
      exact hw hcond.1
    have h1 := libresd_fat_seek_set_position t f L n hopen hchain hpos hoff hcur hcs hcs2 hn
      (by rw [htar]; exact hcov)
    rw [htar] at h1
    unfold libresd_fat_tell
    rw [libresd_fat_seek_cur_zero t _ (by rw [hk1, hopen]) (by rw [h1]; omega)
      (by rw [hk2]; intro hr; exact absurd hr hw)]
    exact h1
  · intro hr hcov
    have htar : (if f.mode &&& 0x02 = 0 ∧ f.file_size < n then f.file_size else n) =
        min n f.file_size := by
      split
      · rename_i hcond
        omega
      · rename_i hcond
        rw [not_and_or] at hcond
        rcases hcond with hc | hc
        · exact absurd hr hc
        · omega
    have h1 := libresd_fat_seek_set_position t f L n hopen hchain hpos hoff hcur hcs hcs2 hn
      (by rw [htar]; exact hcov)
    rw [htar] at h1
    unfold libresd_fat_tell
    rw [libresd_fat_seek_cur_zero t _ (by rw [hk1, hopen]) (by rw [h1]; omega)
      (by rw [hk2, hk3, h1]; intro _; omega)]
    exact h1

/-- A 5-byte file on the chain 5 -> 6 opened write-only. -/
def f_w8 : FileH :=
  { f_empty with mode := 0x02, first_cluster := 5, current_cluster := 5, file_size := 5 }

/-- The same file opened read-only. -/
def f_r8 : FileH :=
  { f_empty with mode := 0x01, first_cluster := 5, current_cluster := 5, file_size := 5 }

/-- Witness for the amended C8 on the concrete chain 5 -> 6 (1024
allocated bytes): in write mode tell lands on n = 700; in read mode it
lands on min n file_size = 5. -/
theorem claim_C8_seek_then_tell_witness :
    libresd_fat_tell
      (libresd_fat_seek t_chain56
        (libresd_fat_seek t_chain56 f_w8 ((700 : Nat) : Int) .seek_set).2 0 .seek_cur).2 = 700 ∧
    libresd_fat_tell
      (libresd_fat_seek t_chain56
        (libresd_fat_seek t_chain56 f_r8 ((700 : Nat) : Int) .seek_set).2 0 .seek_cur).2 =
      min 700 f_r8.file_size :=
  ⟨(claim_C8_seek_then_tell t_chain56 f_w8 [5, 6] 700 rfl
      ⟨rfl, by norm_num, by decide, by norm_num,
        (by decide : fat_next_cluster t_chain56 6 = 0)⟩ rfl rfl rfl
      (by decide) (by decide) (by decide)).1 (by decide) (by decide),
   (claim_C8_seek_then_tell t_chain56 f_r8 [5, 6] 700 rfl
      ⟨rfl, by norm_num, by decide, by norm_num,
        (by decide : fat_next_cluster t_chain56 6 = 0)⟩ rfl rfl rfl
      (by decide) (by decide) (by decide)).2 (by decide) (by decide)⟩

/-- Counterexample to claim C8 as stated: in write mode with n = 2000
beyond the 1024 bytes of the allocated chain, seek(2000, Set) followed
by seek(0, Cur) leaves tell() at 1024 (the end of the chain), not at
2000. -/
theorem claim_C8_counterexample :
    libresd_fat_tell
      (libresd_fat_seek t_chain56
        (libresd_fat_seek t_chain56 f_w8 2000 .seek_set).2 0 .seek_cur).2 = 1024 ∧
    (1024 : Nat) ≠ 2000 := by
  refine ⟨by decide, by decide⟩

/-!
## Path resolution (`fat_resolve_path`, src/libresd_fat.c lines 835..931)

The directory search inside the component loop (an inline `readdir` scan
comparing names case-insensitively) is abstracted as a lookup oracle
from (directory first-cluster, component) to the matching entry; the
component splitting, the `.` and `..` handling, and the output plumbing
follow the C code.  Only the `first_cluster` and `attr` fields of
`libresd_fileinfo_t` are modelled.
-/

structure EntryInfo where
  first_cluster : Nat
  attr : Nat
  deriving DecidableEq

/-- The root cluster expression used throughout `fat_resolve_path`:
`(fat->fs_type == LIBRESD_FS_FAT32) ? fat->root_cluster : 0`. -/
def fat_resolve_root (v : FatVol) : Nat :=
  if v.fs_type = .FAT32 then v.root_cluster else 0

structure ResolveResult where
  err : LibErr
  cluster : Nat
  info : Option EntryInfo
  deriving DecidableEq

/-- The component loop of `fat_resolve_path`.  A component is at most
127 characters (LIBRESD_MAX_FILENAME - 1); trailing slashes are
skipped; `.` is a no-op; `..` jumps to the ROOT cluster (the code
comments: for simplicity, a full implementation would need parent
tracking); otherwise the component is looked up in the current
directory.  `info` stays `none` until the final component writes it -
a path ending in `.` or `..` leaves the output unwritten, as the C
code leaves the out-parameters untouched there.  Fuel `length + 1`
outlasts the loop, which consumes at least one character per round. -/
def fat_resolve_loop (v : FatVol) (lookup : Nat → List Char → Option EntryInfo) :
    Nat → Nat → Option EntryInfo → List Char → ResolveResult
  | 0, current, saved, _ => ⟨.OK, current, saved⟩
  | fuel + 1, current, saved, p =>
    if p = [] then ⟨.OK, current, saved⟩
    else
      let comp := (p.takeWhile (fun c => c ≠ '/')).take 127
      let rest := (p.drop comp.length).dropWhile (fun c => c = '/')
      if comp = ['.'] then fat_resolve_loop v lookup fuel current saved rest
      else if comp = ['.', '.'] then
        fat_resolve_loop v lookup fuel (fat_resolve_root v) saved rest
      else
        match lookup current comp with
        | none => ⟨.ERR_NOT_FOUND, current, saved⟩
        | some e =>
          if rest ≠ [] ∧ e.attr &&& 0x10 = 0 then ⟨.ERR_NOT_DIR, current, saved⟩
          else
            fat_resolve_loop v lookup fuel e.first_cluster
              (if rest = [] then some e else saved) rest

/-- Shallow embedding of `fat_resolve_path`: absolute paths start at the
root, relative paths at the current directory; an empty path resolves
to the start cluster with a synthetic directory info. -/
def fat_resolve_path (v : FatVol) (lookup : Nat → List Char → Option EntryInfo)
    (path : List Char) : ResolveResult :=
  let is_abs := path.head? = some '/'
  let start := if is_abs then fat_resolve_root v else v.cwd_cluster
  let p := if is_abs then path.tail else path
  if p = [] then ⟨.OK, start, some ⟨start, 0x10⟩⟩
  else fat_resolve_loop v lookup (p.length + 1) start none p

/-- A directory tree for the resolver: the root (cluster 0 on FAT12/16)
holds directory `a` at cluster 5; directory `a` holds directory `b` at
cluster 6. -/
def lookup_ab : Nat → List Char → Option EntryInfo := fun dir name =>
  if dir = 0 ∧ name = ['a'] then some ⟨5, 0x10⟩
  else if dir = 5 ∧ name = ['b'] then some ⟨6, 0x10⟩
  else none

/-- Sanity check of the resolver embedding: `a/b` resolves to cluster 6
with the entry of `b` as the final info. -/
theorem resolve_ab_sanity :
    fat_resolve_path test_vol lookup_ab ['a', '/', 'b'] =
      ⟨.OK, 6, some ⟨6, 0x10⟩⟩ := by
  decide

/-- Claim C2 evaluated at the failing input: resolving `a/b/..` (whose
`..` should return to the parent `a`, cluster 5) succeeds but lands on
the ROOT cluster 0: the `..` branch of `fat_resolve_path` always resets
the current cluster to the root instead of the parent. -/
theorem claim_C2_dotdot_goes_to_root :
    (fat_resolve_path test_vol lookup_ab ['a', '/', 'b', '/', '.', '.']).err = .OK ∧
    (fat_resolve_path test_vol lookup_ab ['a', '/', 'b', '/', '.', '.']).cluster = 0 ∧
    (fat_resolve_path test_vol lookup_ab ['a', '/', 'b', '/', '.', '.']).cluster ≠ 5 ∧
    lookup_ab 5 ['b'] = some ⟨6, 0x10⟩ := by
  refine ⟨by decide, by decide, by decide, by decide⟩

/-!
## Unlink directory-entry marking (`libresd_fat_unlink`, lines 549..582)
-/

/-- The deletion marking performed by `libresd_fat_unlink` on the entry
sector (lines 572..581): exactly one byte, the first byte of the 8.3
entry at `dir_offset`, is set to DIRENT_FREE (0xE5).  The C code holds a
`TODO: Also mark LFN entries as deleted` at this spot and walks nothing
backward. -/
def libresd_fat_unlink_mark (sector_bytes : Nat → Nat) (dir_offset : Nat) : Nat → Nat :=
  upd sector_bytes dir_offset 0xE5

/-- A directory sector holding one LFN fragment entry at offset 0
(ordinal byte 0x41, attribute 0x0F) followed by the 8.3 entry at offset
32. -/
def sector_lfn : Nat → Nat := fun i =>
  if i = 0 then 0x41
  else if i = 11 then 0x0F
  else if i = 32 then 0x48
  else if i = 43 then 0x20
  else 0

/-- Claim C5 evaluated at the failing input: unlink marks the 8.3 entry
free (byte 32 becomes 0xE5) but leaves the preceding LFN fragment
untouched: its attribute byte still reads 0x0F and its first byte keeps
the ordinal 0x41 instead of 0xE5. -/
theorem claim_C5_lfn_fragment_not_freed :
    libresd_fat_unlink_mark sector_lfn 32 32 = 0xE5 ∧
    libresd_fat_unlink_mark sector_lfn 32 11 = 0x0F ∧
    libresd_fat_unlink_mark sector_lfn 32 0 = 0x41 ∧
    libresd_fat_unlink_mark sector_lfn 32 0 ≠ 0xE5 := by
  refine ⟨by decide, by decide, by decide, by decide⟩

/-!
## mkdir dot entries (`libresd_fat_mkdir`, src/libresd_file.c lines 628..713)
-/

structure DateTime where
  year : Nat
  month : Nat
  day : Nat
  hour : Nat
  minute : Nat
  second : Nat
  deriving DecidableEq

/-- The LIBRESD_FAT_DATE macro. -/
def fat_date_pack (y m d : Nat) : Nat :=
  (((y - 1980) &&& 0x7F) <<< 9) ||| ((m &&& 0x0F) <<< 5) ||| (d &&& 0x1F)

/-- The LIBRESD_FAT_TIME macro. -/
def fat_time_pack (h m s : Nat) : Nat :=
  ((h &&& 0x1F) <<< 11) ||| ((m &&& 0x3F) <<< 5) ||| ((s / 2) &&& 0x1F)

/-- The first sector of a freshly created directory cluster as built by
`libresd_fat_mkdir` (lines 671..701): a zeroed sector holding the `.`
entry (cluster = the new cluster) and the `..` entry, whose cluster
fields the code sets to 0 with the comment that resolving the parent
cluster is "simplified here".  Field offsets follow `fat_dirent_t`. -/
def libresd_fat_mkdir_first_sector (cluster : Nat) (dt : DateTime) : Nat → Nat :=
  let cdate := fat_date_pack dt.year dt.month dt.day
  let ctime := fat_time_pack dt.hour dt.minute dt.second
  let b : Nat → Nat := fun _ => 0
  let b := fun i => if i ≤ 10 then 0x20 else b i
  let b := upd b 0 0x2E
  let b := upd b 11 0x10
  let b := write16 b 20 (cluster >>> 16 &&& 0xFFFF)
  let b := write16 b 26 (cluster &&& 0xFFFF)
  let b := write16 b 16 cdate
  let b := write16 b 14 ctime
  let b := write16 b 24 cdate
  let b := write16 b 22 ctime
  let b := fun i => if 32 ≤ i ∧ i ≤ 42 then 0x20 else b i
  let b := upd b 32 0x2E
  let b := upd b 33 0x2E
  let b := upd b 43 0x10
  let b := write16 b 52 0
  let b := write16 b 58 0
  let b := write16 b 48 cdate
  let b := write16 b 46 ctime
  let b := write16 b 56 cdate
  let b := write16 b 54 ctime
  b

/-- A fixed wall clock for the concrete evaluation. -/
def dt0 : DateTime := ⟨2024, 5, 17, 12, 30, 42⟩

/-- Claim C6 evaluated at the failing input: creating a directory at new
cluster 9 inside a parent directory whose cluster is 5 yields a first
sector whose `.` entry carries cluster 9 as required, but whose `..`
entry carries cluster 0, not the parent cluster 5. -/
theorem claim_C6_dotdot_entry_cluster_zero :
    ((read16 (libresd_fat_mkdir_first_sector 9 dt0) 52 <<< 16) |||
      read16 (libresd_fat_mkdir_first_sector 9 dt0) 58) = 0 ∧
    ((read16 (libresd_fat_mkdir_first_sector 9 dt0) 52 <<< 16) |||
      read16 (libresd_fat_mkdir_first_sector 9 dt0) 58) ≠ 5 ∧
    ((read16 (libresd_fat_mkdir_first_sector 9 dt0) 20 <<< 16) |||
      read16 (libresd_fat_mkdir_first_sector 9 dt0) 26) = 9 ∧
    libresd_fat_mkdir_first_sector 9 dt0 0 = 0x2E ∧
    libresd_fat_mkdir_first_sector 9 dt0 32 = 0x2E ∧
    libresd_fat_mkdir_first_sector 9 dt0 33 = 0x2E ∧
    libresd_fat_mkdir_first_sector 9 dt0 43 = 0x10 := by
  refine ⟨by decide, by decide, by decide, by decide, by decide, by decide, by decide⟩
